import Mathlib

/-!
Verification development for `AsyncSerial.cpp` (simple-dynamixel trunk).

The source file contains two alternative implementations of the class
`AsyncSerial`, selected by the preprocessor:

* the reactor model (`#ifndef __APPLE__` branch): a boost::asio
  `io_service` run by one background thread; writes go through a pending
  queue (`writeQueue`) and a double buffer (`writeBuffer`), reads are
  re-armed asynchronous completions (`doRead` / `readEnd`);
* the blocking-worker model (`#else` branch, used on Apple): a background
  thread runs a blocking `::read` loop, and writes are synchronous
  `::write` calls from the caller.

We shallow-embed each branch as a state record plus one Lean function per
C++ member function, and an event-step relation for the reactor branch
(whose handlers all run serialized on the single background thread, so a
sequential event trace is a faithful model).  Bytes are modelled as `Nat`;
their values are never inspected by the code.  Fields `transmitted`,
`outstanding` and `cbCount` are instrumentation (the "instrumented
transport" of the specification): `transmitted` collects the bytes handed
to `async_write` / `::write`, `outstanding` counts writes issued minus
write completions handled, `cbCount` counts read-callback invocations.
-/

/-- State of the reactor-model `AsyncSerialImpl` (`#ifndef __APPLE__`).
`isOpen` is `pimpl->open`, `error` is `pimpl->error`, `portOpen` is
whether the asio serial-port handle is open, `threadRunning` is whether
`backgroundThread` is running (join sets it false), `writeQueue` and
`writeBuffer` are the pending queue and the in-flight buffer
(`writeBuffer = none` models the null `shared_array`), `readArmPending`
records a posted-but-not-yet-executed `doRead` task, `readPending`
records an outstanding `async_read_some`, `hasCallback` is whether
`pimpl->callback` is set.  The last three fields are instrumentation. -/
structure RState where
  isOpen : Bool
  error : Bool
  portOpen : Bool
  threadRunning : Bool
  writeQueue : List Nat
  writeBuffer : Option (List Nat)
  readArmPending : Bool
  readPending : Bool
  hasCallback : Bool
  transmitted : List Nat
  outstanding : Nat
  cbCount : Nat
  deriving DecidableEq

/-- State after the `AsyncSerialImpl` constructor: `open(false)`,
`error(false)`, empty queue, null `writeBuffer`, no callback. -/
def initRState : RState :=
  { isOpen := false, error := false, portOpen := false, threadRunning := false
  , writeQueue := [], writeBuffer := none
  , readArmPending := false, readPending := false, hasCallback := false
  , transmitted := [], outstanding := 0, cbCount := 0 }

/-- `AsyncSerial::setErrorStatus(bool e)`: sets `pimpl->error = e` under
`errorMutex`. -/
def setErrorStatusR (s : RState) (e : Bool) : RState :=
  { s with error := e }

/-- `AsyncSerial::doClose()` (reactor branch): `port.cancel(ec)`, error
flag set on failure, `port.close(ec)`, error flag set on failure.  The
handle is released whether or not the calls report errors.  Note it does
not touch `pimpl->open`. -/
def doCloseR (s : RState) (cancelFail closeFail : Bool) : RState :=
  let s1 := if cancelFail then setErrorStatusR s true else s
  let s2 := { s1 with portOpen := false }
  if closeFail then setErrorStatusR s2 true else s2

/-- `AsyncSerial::write(const char *data, size_t size)` (reactor branch):
under `writeQueueMutex`, `writeQueue.insert(writeQueue.end(), data,
data+size)`; then `io.post(doWrite)` (modelled by the availability of the
`runDoWrite` event). -/
def writeR (s : RState) (data : List Nat) : RState :=
  { s with writeQueue := s.writeQueue ++ data }

/-- `AsyncSerial::write(const std::vector<char>&)` (reactor branch): under
`writeQueueMutex`, insert `data.begin()..data.end()` at the end of the
queue; then `io.post(doWrite)`. -/
def writeVecR (s : RState) (data : List Nat) : RState :=
  { s with writeQueue := s.writeQueue ++ data }

/-- `AsyncSerial::writeString(const std::string&)` (reactor branch): under
`writeQueueMutex`, insert `s.begin()..s.end()` at the end of the queue;
then `io.post(doWrite)`. -/
def writeStringR (s : RState) (data : List Nat) : RState :=
  { s with writeQueue := s.writeQueue ++ data }

/-- `AsyncSerial::doWrite()` (reactor branch): if `writeBuffer == 0`
(no write in progress), copy the whole `writeQueue` into a fresh
`writeBuffer`, clear the queue, and `async_write` the buffer (the bytes
are handed to the transport, `outstanding` increments); otherwise do
nothing.  Note the buffer becomes non-null (`some queue`) even when the
queue is empty, matching `new char[0]`. -/
def doWriteR (s : RState) : RState :=
  if s.writeBuffer = none then
    { s with writeBuffer := some s.writeQueue
           , writeQueue := []
           , transmitted := s.transmitted ++ s.writeQueue
           , outstanding := s.outstanding + 1 }
  else s

/-- `AsyncSerial::writeEnd(error)` (reactor branch).  On success with an
empty queue: release `writeBuffer` (reset to null) and stop.  On success
with a non-empty queue: move the queue into a fresh `writeBuffer` and
issue another `async_write` (one completion consumed, one write issued).
On error: `setErrorStatus(true)` then `doClose()`; the in-flight buffer
is NOT reset on this path. -/
def writeEndR (s : RState) (err cancelFail closeFail : Bool) : RState :=
  if err = false then
    if s.writeQueue = [] then
      { s with writeBuffer := none, outstanding := s.outstanding - 1 }
    else
      { s with writeBuffer := some s.writeQueue
             , writeQueue := []
             , transmitted := s.transmitted ++ s.writeQueue
             , outstanding := s.outstanding - 1 + 1 }
  else
    doCloseR (setErrorStatusR { s with outstanding := s.outstanding - 1 } true)
      cancelFail closeFail

/-- `AsyncSerial::doRead()` (reactor branch): issue `async_read_some`
into the fixed read buffer; a read completion becomes outstanding. -/
def doReadR (s : RState) : RState :=
  { s with readPending := true }

/-- `AsyncSerial::readEnd(error, bytes_transferred)` (reactor branch).
`apple` models whether the preprocessor symbol `__APPLE__` is defined:
the `error.value()==45` retry branch is only compiled in that case.
On error: with the apple guard and code 45, just `doRead()` again;
otherwise if `isOpen()`, `doClose()` then `setErrorStatus(true)`; if not
open the error is ignored (it came from the close sequence).  On
success: invoke the callback (if set) with the buffer and count, then
re-arm with `doRead()`. -/
def readEndR (apple : Bool) (s : RState) (ec : Option Nat) (_n : Nat)
    (cancelFail closeFail : Bool) : RState :=
  let s0 := { s with readPending := false }
  match ec with
  | some v =>
      if apple && v == 45 then
        doReadR s0
      else if s0.isOpen then
        setErrorStatusR (doCloseR s0 cancelFail closeFail) true
      else s0
  | none =>
      let s1 := if s0.hasCallback then { s0 with cbCount := s0.cbCount + 1 } else s0
      doReadR s1

/-- Translation of the preprocessor structure of the file: the reactor
branch (and hence its `readEnd`) is compiled exactly when `__APPLE__` is
NOT defined (`#ifndef __APPLE__`); when `__APPLE__` is defined the file
compiles the blocking-worker branch instead, whose `readEnd` is an empty
stub marked "Not used". -/
def reactorCompiled (apple : Bool) : Bool :=
  !apple

/-- `AsyncSerial::close()` (reactor branch): no-op if not open; else set
`open=false`, post `doClose` into the event loop (the task runs on the
background thread before the join returns), join the background thread,
`io.reset()`, and finally throw "Error while closing the device" exactly
when `errorStatus()` is true.  The second component is whether close
threw. -/
def closeR (s : RState) (cancelFail closeFail : Bool) : RState × Bool :=
  if s.isOpen = true then
    let s2 := doCloseR { s with isOpen := false } cancelFail closeFail
    let s3 := { s2 with threadRunning := false }
    (s3, s3.error)
  else (s, false)

/-- Outcome of the fallible steps of the reactor-model `open`: the device
acquisition `port.open(devname)` can throw, the `set_option` calls can
throw, the thread construction can throw, or everything succeeds. -/
inductive ROpenOutcome where
  | success
  | failAcquire
  | failOption
  | failThread
  deriving DecidableEq

/-- `AsyncSerial::open(...)` (reactor branch): if `isOpen()` then
`close()` (whose exception, if any, propagates); `setErrorStatus(true)`;
`port.open(devname)`; the five `set_option` calls; `io.post(doRead)`;
start the background thread; `setErrorStatus(false)`; `open = true`.
The second component is whether open threw. -/
def openR (s : RState) (cancelFail closeFail : Bool) (out : ROpenOutcome) :
    RState × Bool :=
  let c := if s.isOpen = true then closeR s cancelFail closeFail else (s, false)
  if c.2 = true then (c.1, true)
  else
    let s2 := setErrorStatusR c.1 true
    match out with
    | ROpenOutcome.failAcquire => (s2, true)
    | ROpenOutcome.failOption => ({ s2 with portOpen := true }, true)
    | ROpenOutcome.failThread =>
        ({ s2 with portOpen := true, readArmPending := true }, true)
    | ROpenOutcome.success =>
        let s3 := { s2 with portOpen := true, readArmPending := true
                          , threadRunning := true }
        let s4 := setErrorStatusR s3 false
        ({ s4 with isOpen := true }, false)

/-- Events of the reactor model.  Foreground calls (`write`, `open`,
`close`) can occur at any time; `runDoWrite` is the execution of a posted
`doWrite` task; `runDoRead` the execution of the `doRead` task posted by
`open`; `writeEnd` and `readEnd` are I/O completions dispatched by the
event loop.  Error-code parameters carry the outcomes of the fallible
library calls inside each handler. -/
inductive REvent where
  | write (data : List Nat)
  | runDoWrite
  | writeEnd (err cancelFail closeFail : Bool)
  | runDoRead
  | readEnd (ec : Option Nat) (n : Nat) (cancelFail closeFail : Bool)
  | openEv (cancelFail closeFail : Bool) (out : ROpenOutcome)
  | closeEv (cancelFail closeFail : Bool)
  deriving DecidableEq

/-- One step of the reactor model.  `readEnd` is instantiated with
`apple := false` because the reactor branch is compiled only when
`__APPLE__` is not defined. -/
def rstep (s : RState) : REvent → RState
  | REvent.write data => writeR s data
  | REvent.runDoWrite => doWriteR s
  | REvent.writeEnd err cf1 cf2 => writeEndR s err cf1 cf2
  | REvent.runDoRead => doReadR { s with readArmPending := false }
  | REvent.readEnd ec n cf1 cf2 => readEndR false s ec n cf1 cf2
  | REvent.openEv cf1 cf2 out => (openR s cf1 cf2 out).1
  | REvent.closeEv cf1 cf2 => (closeR s cf1 cf2).1

/-- Validity of an event in a state: a write completion can only be
dispatched for an issued write, a read completion only for an outstanding
read, and the posted `doRead` task can only run if it was posted. -/
def rvalid (s : RState) : REvent → Bool
  | REvent.writeEnd _ _ _ => decide (1 ≤ s.outstanding)
  | REvent.runDoRead => s.readArmPending
  | REvent.readEnd _ _ _ _ => s.readPending
  | _ => true

/-- Run a trace of events. -/
def rexec (s : RState) : List REvent → RState
  | [] => s
  | e :: es => rexec (rstep s e) es

/-- A trace is valid when every event is valid in the state it fires in. -/
def rvalidTrace (s : RState) : List REvent → Bool
  | [] => true
  | e :: es => rvalid s e && rvalidTrace (rstep s e) es

/-- Whether an event is a foreground `open` call. -/
def isOpenEvent : REvent → Bool
  | REvent.openEv _ _ _ => true
  | _ => false

/-- A trace that contains no `open` call. -/
def noOpenEvent (es : List REvent) : Bool :=
  es.all fun e => !isOpenEvent e

/-- State of a freshly and successfully opened reactor engine. -/
def openedRState : RState :=
  (openR initRState false false ROpenOutcome.success).1

/-- Opened engine after the posted `doRead` task has executed: one read
completion is outstanding, the normal running state. -/
def errorReadyRState : RState :=
  rexec openedRState [REvent.runDoRead]

/-- Running reactor engine whose error flag has been set. -/
def erroredRState : RState :=
  { openedRState with error := true }

/-- Running reactor engine with a read outstanding and a read callback
registered. -/
def cbRunningRState : RState :=
  { errorReadyRState with hasCallback := true }

/-- The part of the specification invariant on the write channel that the
code maintains: at most one write is in flight, and whenever a write is
outstanding the in-flight buffer is non-null. -/
def writeInv (s : RState) : Prop :=
  s.outstanding ≤ 1 ∧ (s.outstanding = 1 → s.writeBuffer.isSome = true)

/-- State of the blocking-worker `AsyncSerialImpl` (`#else` branch, used
when `__APPLE__` is defined).  `fd` is the POSIX descriptor stored by
`open`; writes are synchronous; `transmitted` instruments the bytes
handed to `::write`. -/
structure BState where
  isOpen : Bool
  error : Bool
  portOpen : Bool
  threadRunning : Bool
  fd : Int
  hasCallback : Bool
  transmitted : List Nat
  deriving DecidableEq

/-- State after the blocking-worker `AsyncSerialImpl` constructor. -/
def initBState : BState :=
  { isOpen := false, error := false, portOpen := false, threadRunning := false
  , fd := 0, hasCallback := false, transmitted := [] }

/-- `AsyncSerial::setErrorStatus` (blocking-worker branch). -/
def setErrorStatusB (s : BState) (e : Bool) : BState :=
  { s with error := e }

/-- `AsyncSerial::close()` (blocking-worker branch): no-op if not open;
else `open = false`, `::close(pimpl->fd)` (releasing the handle and
unblocking the reader), join the background thread, then throw "Error
while closing the device" exactly when `errorStatus()` is true. -/
def closeB (s : BState) : BState × Bool :=
  if s.isOpen = true then
    let s1 := { s with isOpen := false }
    let s2 := { s1 with portOpen := false }
    let s3 := { s2 with threadRunning := false }
    (s3, s3.error)
  else (s, false)

/-- Body of the blocking-worker `AsyncSerial::open` after the optional
auto-close: `setErrorStatus(true)`; `pimpl->fd = ::open(devname, ...)`
with the result stored unchecked (the original failure check is commented
out in the source); the `ioctl` / `fcntl` / `tcgetattr` / `tcsetattr` /
`IOSSIOSPEED` status values (`cfgStatus`) are tested only to print
diagnostics and never abort; `setErrorStatus(false)`; `open = true`;
start the read-loop thread.  This path cannot throw. -/
def openBodyB (s : BState) (newFd : Int) (_cfgStatus : List Bool) : BState × Bool :=
  let s1 := setErrorStatusB s true
  let s2 := { s1 with fd := newFd, portOpen := decide (0 ≤ newFd) }
  let s3 := setErrorStatusB s2 false
  ({ s3 with isOpen := true, threadRunning := true }, false)

/-- `AsyncSerial::open(...)` (blocking-worker branch): if `isOpen()` then
`close()` first (whose exception, if any, propagates); then the body
above.  The second component is whether open threw. -/
def openB (s : BState) (newFd : Int) (cfgStatus : List Bool) : BState × Bool :=
  if s.isOpen = true then
    let c := closeB s
    if c.2 = true then (c.1, true)
    else openBodyB c.1 newFd cfgStatus
  else openBodyB s newFd cfgStatus

/-- `AsyncSerial::write(const char*, size_t)` (blocking-worker branch):
`if(::write(pimpl->fd, data, size) != size) setErrorStatus(true)`.
`ret` is the value returned by the `::write` syscall; the bytes are
handed to the transport in all cases. -/
def writeB (s : BState) (data : List Nat) (ret : Int) : BState :=
  let s1 := { s with transmitted := s.transmitted ++ data }
  if ret = (data.length : Int) then s1 else setErrorStatusB s1 true

/-- `AsyncSerial::write(const std::vector<char>&)` (blocking-worker
branch): `if(::write(pimpl->fd, &data[0], data.size()) != data.size())
setErrorStatus(true)`. -/
def writeVecB (s : BState) (data : List Nat) (ret : Int) : BState :=
  let s1 := { s with transmitted := s.transmitted ++ data }
  if ret = (data.length : Int) then s1 else setErrorStatusB s1 true

/-- `AsyncSerial::writeString(const std::string&)` (blocking-worker
branch): `if(::write(pimpl->fd, &s[0], s.size()) != s.size())
setErrorStatus(true)`. -/
def writeStringB (s : BState) (data : List Nat) (ret : Int) : BState :=
  let s1 := { s with transmitted := s.transmitted ++ data }
  if ret = (data.length : Int) then s1 else setErrorStatusB s1 true

/-- Outcome of one iteration of the blocking read loop: the loop either
returns (thread terminates) or continues, possibly having delivered a
chunk of the given length to the callback. -/
inductive BReadOutcome where
  | terminated
  | continued (delivered : Option Nat)
  deriving DecidableEq

/-- One iteration of `AsyncSerial::doRead()` (blocking-worker branch):
`received = ::read(fd, readBuffer, readBufferSize)`; if `received < 0`:
return when `isOpen() == false` (port closed), otherwise
`setErrorStatus(true)` and continue; otherwise (any `received >= 0`,
including 0) invoke the callback, if set, with `(readBuffer, received)`. -/
def doReadBStep (s : BState) (received : Int) : BState × BReadOutcome :=
  if received < 0 then
    if s.isOpen = false then (s, BReadOutcome.terminated)
    else (setErrorStatusB s true, BReadOutcome.continued none)
  else
    (s, BReadOutcome.continued
      (if s.hasCallback then some received.toNat else none))

/-- Blocking-worker state with the port open and a callback registered. -/
def cbBState : BState :=
  { initBState with
      isOpen := true, portOpen := true, threadRunning := true
      hasCallback := true }

/-- Blocking-worker state with the error flag set. -/
def erroredBState : BState :=
  { cbBState with error := true }

/-! ## Frame lemmas -/

/-- Fields of the state that `doClose` (reactor branch) never touches; in
particular it does NOT clear the `open` flag. -/
theorem doCloseR_frame (s : RState) (cf1 cf2 : Bool) :
    (doCloseR s cf1 cf2).isOpen = s.isOpen ∧
    (doCloseR s cf1 cf2).writeQueue = s.writeQueue ∧
    (doCloseR s cf1 cf2).writeBuffer = s.writeBuffer ∧
    (doCloseR s cf1 cf2).readArmPending = s.readArmPending ∧
    (doCloseR s cf1 cf2).readPending = s.readPending ∧
    (doCloseR s cf1 cf2).hasCallback = s.hasCallback ∧
    (doCloseR s cf1 cf2).transmitted = s.transmitted ∧
    (doCloseR s cf1 cf2).outstanding = s.outstanding ∧
    (doCloseR s cf1 cf2).cbCount = s.cbCount ∧
    (doCloseR s cf1 cf2).threadRunning = s.threadRunning := by
  cases cf1 <;> cases cf2 <;>
    exact ⟨rfl, rfl, rfl, rfl, rfl, rfl, rfl, rfl, rfl, rfl⟩

/-- `doClose` never clears the error flag. -/
theorem doCloseR_error_mono (s : RState) (cf1 cf2 : Bool)
    (h : s.error = true) : (doCloseR s cf1 cf2).error = true := by
  cases cf1 <;> cases cf2 <;> simp [doCloseR, setErrorStatusR, h]

/-- Fields of the state that `close` (reactor branch) never touches. -/
theorem closeR_frame (s : RState) (cf1 cf2 : Bool) :
    ((closeR s cf1 cf2).1).writeQueue = s.writeQueue ∧
    ((closeR s cf1 cf2).1).writeBuffer = s.writeBuffer ∧
    ((closeR s cf1 cf2).1).readArmPending = s.readArmPending ∧
    ((closeR s cf1 cf2).1).readPending = s.readPending ∧
    ((closeR s cf1 cf2).1).hasCallback = s.hasCallback ∧
    ((closeR s cf1 cf2).1).transmitted = s.transmitted ∧
    ((closeR s cf1 cf2).1).outstanding = s.outstanding ∧
    ((closeR s cf1 cf2).1).cbCount = s.cbCount := by
  obtain ⟨o, e, p, th, wq, wb, rap, rp, cb, tx, os, cc⟩ := s
  cases o <;> cases cf1 <;> cases cf2 <;>
    exact ⟨rfl, rfl, rfl, rfl, rfl, rfl, rfl, rfl⟩

/-- `close` never clears the error flag. -/
theorem closeR_error_mono (s : RState) (cf1 cf2 : Bool)
    (h : s.error = true) : ((closeR s cf1 cf2).1).error = true := by
  obtain ⟨o, e, p, th, wq, wb, rap, rp, cb, tx, os, cc⟩ := s
  cases o <;> cases cf1 <;> cases cf2 <;> simp_all [closeR, doCloseR, setErrorStatusR]

/-- Fields of the state that `open` (reactor branch) never touches. -/
theorem openR_frame (s : RState) (cf1 cf2 : Bool) (out : ROpenOutcome) :
    ((openR s cf1 cf2 out).1).writeQueue = s.writeQueue ∧
    ((openR s cf1 cf2 out).1).writeBuffer = s.writeBuffer ∧
    ((openR s cf1 cf2 out).1).hasCallback = s.hasCallback ∧
    ((openR s cf1 cf2 out).1).transmitted = s.transmitted ∧
    ((openR s cf1 cf2 out).1).outstanding = s.outstanding ∧
    ((openR s cf1 cf2 out).1).cbCount = s.cbCount := by
  obtain ⟨o, e, p, th, wq, wb, rap, rp, cb, tx, os, cc⟩ := s
  cases o <;> cases e <;> cases cf1 <;> cases cf2 <;> cases out <;>
    exact ⟨rfl, rfl, rfl, rfl, rfl, rfl⟩

/-! ## Write-queue helper lemmas -/

/-- A sequence of `write` calls appends the concatenation of their byte
sequences, in call order, to the pending queue. -/
theorem foldl_writeR_queue (bs : List (List Nat)) (s : RState) :
    (bs.foldl writeR s).writeQueue = s.writeQueue ++ bs.flatten := by
  induction bs generalizing s with
  | nil => simp
  | cons b bs ih =>
      simp only [List.foldl_cons, List.flatten_cons, ih, writeR]
      simp [List.append_assoc]

/-- `write` touches nothing but the pending queue. -/
theorem foldl_writeR_frame (bs : List (List Nat)) (s : RState) :
    (bs.foldl writeR s).transmitted = s.transmitted ∧
    (bs.foldl writeR s).writeBuffer = s.writeBuffer := by
  induction bs generalizing s with
  | nil => exact ⟨rfl, rfl⟩
  | cons b bs ih => exact ih (writeR s b)

/-! ## Claim theorems -/

/-- C1: in the reactor model, for every sequence of calls `write(b1)`,
…, `write(bn)` made before the queue drains, the bytes handed to the
transport equal the concatenation `b1 ++ … ++ bn` in call order: each
write appends its bytes to the end of the pending queue, and the drain
moves the entire queue, in order, into the in-flight buffer, so no byte
is lost or reordered. -/
theorem c1_reactor_write_order (bs : List (List Nat)) :
    (bs.foldl writeR openedRState).writeQueue = bs.flatten ∧
    (bs.foldl writeR openedRState).transmitted = [] ∧
    (doWriteR (bs.foldl writeR openedRState)).transmitted = bs.flatten ∧
    (doWriteR (bs.foldl writeR openedRState)).writeBuffer = some bs.flatten ∧
    (doWriteR (bs.foldl writeR openedRState)).writeQueue = [] ∧
    ∀ (s : RState) (b : List Nat), (writeR s b).writeQueue = s.writeQueue ++ b := by
  have h0q : openedRState.writeQueue = [] := rfl
  have h0t : openedRState.transmitted = [] := rfl
  have h0b : openedRState.writeBuffer = none := rfl
  have hq : (bs.foldl writeR openedRState).writeQueue = bs.flatten := by
    rw [foldl_writeR_queue, h0q, List.nil_append]
  have hf := foldl_writeR_frame bs openedRState
  have ht : (bs.foldl writeR openedRState).transmitted = [] := by
    rw [hf.1, h0t]
  have hb : (bs.foldl writeR openedRState).writeBuffer = none := by
    rw [hf.2, h0b]
  refine ⟨hq, ht, ?_, ?_, ?_, fun s b => rfl⟩ <;>
    simp [doWriteR, hb, hq, ht]

/-- C2 counterexample: from a freshly opened engine, the valid trace
`write [5]`, run the posted drain, then a write completion with error
reaches a state whose in-flight buffer is still non-null although no
write is outstanding (the error path of `writeEnd` never resets
`writeBuffer`), refuting "the in-flight buffer is non-null if and only if
a write operation is outstanding" and "the completion handler resets the
buffer to null exactly when the pending queue is empty". -/
theorem c2_counterexample :
    rvalidTrace openedRState
      [REvent.write [5], REvent.runDoWrite, REvent.writeEnd true false false]
        = true ∧
    (rexec openedRState
      [REvent.write [5], REvent.runDoWrite, REvent.writeEnd true false false]
        ).writeBuffer.isSome = true ∧
    (rexec openedRState
      [REvent.write [5], REvent.runDoWrite, REvent.writeEnd true false false]
        ).outstanding = 0 ∧
    (rexec openedRState
      [REvent.write [5], REvent.runDoWrite, REvent.writeEnd true false false]
        ).writeQueue = [] := by
  decide

/-- C3 counterexample: a read completion with a genuine error while the
engine is open (the running state `errorReadyRState`) sets the error flag
but leaves `isOpen()` TRUE: the close-on-error path (`doClose`) never
clears `pimpl->open`, so "isOpen() becomes false" fails on the code. -/
theorem c3_counterexample :
    errorReadyRState.isOpen = true ∧
    errorReadyRState.error = false ∧
    errorReadyRState.readPending = true ∧
    (readEndR false errorReadyRState (some 1) 0 false false).error = true ∧
    (readEndR false errorReadyRState (some 1) 0 false false).isOpen = true := by
  decide

/-- C4 counterexample: in the blocking-worker model, `open` on an
inaccessible device (the `::open` syscall returns `-1`, and every
configuration call reports failure) does NOT throw: it returns normally
with the engine marked open and the error flag cleared, because the
failure check after `::open` is commented out and configuration statuses
only print diagnostics. -/
theorem c4_counterexample :
    (openB initBState (-1) [false, false, false, false, false]).2 = false ∧
    ((openB initBState (-1) [false, false, false, false, false]).1).isOpen
      = true ∧
    ((openB initBState (-1) [false, false, false, false, false]).1).error
      = false := by
  decide

/-- C7 counterexample: in the blocking-worker read loop, a blocking read
that returns 0 bytes IS delivered to the registered callback (with
length 0): only strictly negative results are filtered, refuting "every
returned chunk with zero or negative length is not delivered". -/
theorem c7_counterexample :
    cbBState.hasCallback = true ∧
    doReadBStep cbBState 0 = (cbBState, BReadOutcome.continued (some 0)) := by
  decide

/-- C7 as amended: chunks with negative length are never delivered; a
non-negative result (including 0) is delivered to the callback when one
is registered; a negative read while the open flag is true sets the
error flag and the loop continues; the loop terminates exactly when a
read fails after the open flag has become false. -/
theorem c7_amended_read_loop (s : BState) (r : Int) :
    (r < 0 ∧ s.isOpen = true →
      doReadBStep s r = (setErrorStatusB s true, BReadOutcome.continued none)) ∧
    (r < 0 ∧ s.isOpen = false →
      doReadBStep s r = (s, BReadOutcome.terminated)) ∧
    (0 ≤ r ∧ s.hasCallback = true →
      doReadBStep s r = (s, BReadOutcome.continued (some r.toNat))) ∧
    (0 ≤ r ∧ s.hasCallback = false →
      doReadBStep s r = (s, BReadOutcome.continued none)) ∧
    ((doReadBStep s r).2 = BReadOutcome.terminated ↔ r < 0 ∧ s.isOpen = false) := by
  refine ⟨?_, ?_, ?_, ?_, ?_⟩
  · rintro ⟨hr, ho⟩
    simp [doReadBStep, hr, ho]
  · rintro ⟨hr, ho⟩
    simp [doReadBStep, hr, ho]
  · rintro ⟨hr, hc⟩
    have hrn : ¬ r < 0 := not_lt.mpr hr
    simp [doReadBStep, hrn, hc]
  · rintro ⟨hr, hc⟩
    have hrn : ¬ r < 0 := not_lt.mpr hr
    simp [doReadBStep, hrn, hc]
  · by_cases hr : r < 0
    · cases ho : s.isOpen <;> simp [doReadBStep, hr, ho]
    · simp [doReadBStep, hr]

/-- C7 witness: concrete instance of the amended read-loop theorem at a
negative read result in the open state. -/
theorem c7_amended_read_loop_witness :
    doReadBStep cbBState (-1)
      = (setErrorStatusB cbBState true, BReadOutcome.continued none) :=
  (c7_amended_read_loop cbBState (-1)).1 ⟨by decide, rfl⟩

/-- C9: the transient "device busy" (error code 45) retry exists only as
dead code.  The retry branch of `readEnd` is guarded by `#ifdef
__APPLE__`, but the whole reactor branch containing `readEnd` is guarded
by `#ifndef __APPLE__`, so no compiled configuration retries: were the
apple guard active, `readEnd` would retry with no other state change
(second conjunct), but that configuration is never compiled (first
conjunct), and in the configuration that is compiled an error-45 read
completion while open closes the port and sets the error flag instead
(remaining conjuncts). -/
theorem c9_busy_error_retry_dead :
    reactorCompiled true = false ∧
    readEndR true errorReadyRState (some 45) 0 false false = errorReadyRState ∧
    (readEndR false errorReadyRState (some 45) 0 false false).error = true ∧
    (readEndR false errorReadyRState (some 45) 0 false false).portOpen = false ∧
    (readEndR false errorReadyRState (some 45) 0 false false).readPending
      = false := by
  decide

/-- C10: the three write entry points of each model - `write(ptr, size)`,
`write(vector)`, `writeString(string)` - are behaviorally equivalent: on
equal byte content they produce the same engine state, and the same
bytes are handed to the transport, in both execution models. -/
theorem c10_write_overloads_equivalent (s : RState) (t : BState)
    (data : List Nat) (ret : Int) :
    writeR s data = writeVecR s data ∧
    writeVecR s data = writeStringR s data ∧
    writeB t data ret = writeVecB t data ret ∧
    writeVecB t data ret = writeStringB t data ret ∧
    (writeB t data ret).transmitted = t.transmitted ++ data ∧
    (writeR s data).writeQueue = s.writeQueue ++ data := by
  refine ⟨rfl, rfl, rfl, rfl, ?_, rfl⟩
  unfold writeB setErrorStatusB
  by_cases h : ret = (data.length : Int) <;> simp [h]

/-! ## Per-event lemmas for the trace invariants -/

/-- Projections of the error path of `writeEnd`: it sets the error flag,
consumes the completion, and leaves everything else alone - in
particular it does NOT reset the in-flight buffer and does NOT clear the
open flag. -/
theorem writeEndR_err_proj (s : RState) (cf1 cf2 : Bool) :
    (writeEndR s true cf1 cf2).outstanding = s.outstanding - 1 ∧
    (writeEndR s true cf1 cf2).writeBuffer = s.writeBuffer ∧
    (writeEndR s true cf1 cf2).writeQueue = s.writeQueue ∧
    (writeEndR s true cf1 cf2).readPending = s.readPending ∧
    (writeEndR s true cf1 cf2).readArmPending = s.readArmPending ∧
    (writeEndR s true cf1 cf2).cbCount = s.cbCount ∧
    (writeEndR s true cf1 cf2).isOpen = s.isOpen ∧
    (writeEndR s true cf1 cf2).error = true := by
  cases cf1 <;> cases cf2 <;>
    exact ⟨rfl, rfl, rfl, rfl, rfl, rfl, rfl, rfl⟩

/-- Every event except a fresh `open` preserves the write-channel
invariant: at most one write in flight, and the buffer non-null whenever
a write is outstanding. -/
theorem writeInv_step (s : RState) (e : REvent)
    (hv : rvalid s e = true) (h : writeInv s) : writeInv (rstep s e) := by
  obtain ⟨h1, h2⟩ := h
  cases e with
  | write data => exact ⟨h1, h2⟩
  | runDoWrite =>
      show writeInv (doWriteR s)
      by_cases hb : s.writeBuffer = none
      · have hz : s.outstanding = 0 := by
          by_cases h01 : s.outstanding = 1
          · exact absurd (h2 h01) (by simp [hb])
          · omega
        constructor
        · simp [doWriteR, hb, hz]
        · intro _
          simp [doWriteR, hb]
      · have hid : doWriteR s = s := by simp [doWriteR, hb]
        rw [hid]; exact ⟨h1, h2⟩
  | writeEnd err cf1 cf2 =>
      have hv' : 1 ≤ s.outstanding := by simpa [rvalid] using hv
      have h11 : s.outstanding = 1 := le_antisymm h1 hv'
      show writeInv (writeEndR s err cf1 cf2)
      cases err with
      | false =>
          by_cases hq : s.writeQueue = []
          · constructor
            · simp [writeEndR, hq, h11]
            · intro hcon
              simp [writeEndR, hq, h11] at hcon
          · constructor
            · simp [writeEndR, hq, h11]
            · intro _
              simp [writeEndR, hq]
      | true =>
          obtain ⟨ho, _, _, _, _, _, _, _⟩ := writeEndR_err_proj s cf1 cf2
          constructor
          · rw [ho]; omega
          · intro hcon
            rw [ho, h11] at hcon
            simp at hcon
  | runDoRead => exact ⟨h1, h2⟩
  | readEnd ec n cf1 cf2 =>
      show writeInv (readEndR false s ec n cf1 cf2)
      cases ec with
      | none =>
          cases hc : s.hasCallback <;>
            · constructor
              · simp [readEndR, doReadR, hc]; exact h1
              · intro hcon
                simp [readEndR, doReadR, hc] at hcon ⊢
                exact h2 hcon
      | some v =>
          cases ho : s.isOpen with
          | false =>
              constructor
              · simp [readEndR, ho]; exact h1
              · intro hcon
                simp [readEndR, ho] at hcon ⊢
                exact h2 hcon
          | true =>
              constructor
              · simp [readEndR, ho, setErrorStatusR, doCloseR]
                cases cf1 <;> cases cf2 <;> simp <;> exact h1
              · intro hcon
                simp [readEndR, ho, setErrorStatusR, doCloseR] at hcon ⊢
                cases cf1 <;> cases cf2 <;> simp at hcon ⊢ <;> exact h2 hcon
  | openEv cf1 cf2 out =>
      obtain ⟨_, hwb, _, _, hos, _⟩ := openR_frame s cf1 cf2 out
      constructor
      · show ((openR s cf1 cf2 out).1).outstanding ≤ 1
        rw [hos]; exact h1
      · intro hcon
        have hcon2 : ((openR s cf1 cf2 out).1).outstanding = 1 := hcon
        show ((openR s cf1 cf2 out).1).writeBuffer.isSome = true
        rw [hos] at hcon2
        rw [hwb]; exact h2 hcon2
  | closeEv cf1 cf2 =>
      obtain ⟨_, hwb, _, _, _, _, hos, _⟩ := closeR_frame s cf1 cf2
      constructor
      · show ((closeR s cf1 cf2).1).outstanding ≤ 1
        rw [hos]; exact h1
      · intro hcon
        have hcon2 : ((closeR s cf1 cf2).1).outstanding = 1 := hcon
        show ((closeR s cf1 cf2).1).writeBuffer.isSome = true
        rw [hos] at hcon2
        rw [hwb]; exact h2 hcon2

/-- The write-channel invariant is preserved by every valid trace. -/
theorem writeInv_trace (es : List REvent) (s : RState)
    (h : writeInv s) (hv : rvalidTrace s es = true) : writeInv (rexec s es) := by
  induction es generalizing s with
  | nil => exact h
  | cons e es ih =>
      simp only [rvalidTrace, Bool.and_eq_true] at hv
      exact ih (rstep s e) (writeInv_step s e hv.1 h) hv.2

/-- C2 as amended: at most one write is in flight at any time over every
valid trace, and the in-flight buffer is non-null whenever a write is
outstanding (the converse direction of the claimed iff fails after a
write error, see the counterexample); moreover the drain step does
nothing when the buffer is non-null, and the SUCCESSFUL completion
handler resets the buffer to null exactly when the pending queue is
empty (moving the queue into the buffer otherwise). -/
theorem c2_amended_write_invariant (s : RState) (es : List REvent)
    (h : writeInv s) (hv : rvalidTrace s es = true) :
    writeInv (rexec s es) ∧
    (∀ t : RState, t.writeBuffer.isSome = true → doWriteR t = t) ∧
    (∀ (t : RState) (cf1 cf2 : Bool), t.writeQueue = [] →
      (writeEndR t false cf1 cf2).writeBuffer = none) ∧
    (∀ (t : RState) (cf1 cf2 : Bool), t.writeQueue ≠ [] →
      (writeEndR t false cf1 cf2).writeBuffer = some t.writeQueue) := by
  refine ⟨writeInv_trace es s h hv, ?_, ?_, ?_⟩
  · intro t ht
    unfold doWriteR
    rw [if_neg]
    intro hc
    rw [hc] at ht
    simp at ht
  · intro t cf1 cf2 hq
    simp [writeEndR, hq]
  · intro t cf1 cf2 hq
    simp [writeEndR, hq]

/-- C2 witness: the amended invariant evaluated on a concrete valid
trace from a freshly opened engine. -/
theorem c2_amended_write_invariant_witness :
    (rexec openedRState [REvent.write [3], REvent.runDoWrite]).outstanding ≤ 1 ∧
    ((rexec openedRState [REvent.write [3], REvent.runDoWrite]).outstanding = 1 →
      (rexec openedRState
        [REvent.write [3], REvent.runDoWrite]).writeBuffer.isSome = true) :=
  (c2_amended_write_invariant openedRState [REvent.write [3], REvent.runDoWrite]
    (by exact ⟨by decide, by decide⟩) (by decide)).1

/-- Once no read completion is outstanding and no `doRead` task is
posted, any valid event that is not a fresh `open` keeps it that way and
cannot invoke the read callback. -/
theorem quiesced_step (s : RState) (e : REvent)
    (hv : rvalid s e = true) (hne : isOpenEvent e = false)
    (hrp : s.readPending = false) (hrap : s.readArmPending = false) :
    (rstep s e).readPending = false ∧ (rstep s e).readArmPending = false ∧
    (rstep s e).cbCount = s.cbCount := by
  cases e with
  | write data => exact ⟨hrp, hrap, rfl⟩
  | runDoWrite =>
      by_cases hb : s.writeBuffer = none <;>
        simp [rstep, doWriteR, hb, hrp, hrap]
  | writeEnd err cf1 cf2 =>
      cases err with
      | false =>
          by_cases hq : s.writeQueue = [] <;>
            simp [rstep, writeEndR, hq, hrp, hrap]
      | true =>
          obtain ⟨_, _, _, h4, h5, h6, _, _⟩ := writeEndR_err_proj s cf1 cf2
          exact ⟨h4.trans hrp, h5.trans hrap, h6⟩
  | runDoRead =>
      simp only [rvalid] at hv
      rw [hrap] at hv
      simp at hv
  | readEnd ec n cf1 cf2 =>
      simp only [rvalid] at hv
      rw [hrp] at hv
      simp at hv
  | openEv cf1 cf2 out =>
      simp [isOpenEvent] at hne
  | closeEv cf1 cf2 =>
      obtain ⟨_, _, h3, h4, _, _, _, h8⟩ := closeR_frame s cf1 cf2
      exact ⟨h4.trans hrp, h3.trans hrap, h8⟩

/-- Over any valid trace without a fresh `open`, a quiesced read channel
never invokes the callback again. -/
theorem quiesced_trace (es : List REvent) (s : RState)
    (hrp : s.readPending = false) (hrap : s.readArmPending = false)
    (hno : noOpenEvent es = true) (hv : rvalidTrace s es = true) :
    (rexec s es).cbCount = s.cbCount := by
  induction es generalizing s with
  | nil => rfl
  | cons e es ih =>
      simp only [rvalidTrace, Bool.and_eq_true] at hv
      simp only [noOpenEvent, List.all_cons, Bool.and_eq_true] at hno
      have hne : isOpenEvent e = false := by
        rcases hno with ⟨hno1, _⟩
        cases hie : isOpenEvent e
        · rfl
        · rw [hie] at hno1; simp at hno1
      obtain ⟨hq1, hq2, hq3⟩ := quiesced_step s e hv.1 hne hrp hrap
      have hrec := ih (rstep s e) hq1 hq2 hno.2 hv.2
      rw [rexec, hrec, hq3]

/-- C3 as amended: after a runtime I/O error while the device is marked
open, `errorStatus()` becomes true and `isOpen()` REMAINS true, because
the close-on-error path never clears the open flag (only an explicit
`close()` does).  After a runtime READ failure the read callback is
never invoked again over any valid continuation that does not
re-`open`.  After a runtime WRITE failure the port is torn down and the
error flag set, but the read channel is not synchronously silenced: a
read completion already in flight may still deliver to the callback, as
the concrete valid open-free trace in the last conjuncts shows
(`write [7]`, drain, write completion with error, then a pending read
completes successfully and bumps the callback count from 0 to 1). -/
theorem c3_amended_runtime_error (s : RState) (ec n : Nat) (cf1 cf2 : Bool)
    (es : List REvent)
    (hOpen : s.isOpen = true) (_hrp : s.readPending = true)
    (hrap : s.readArmPending = false)
    (hno : noOpenEvent es = true)
    (hv : rvalidTrace (readEndR false s (some ec) n cf1 cf2) es = true) :
    (readEndR false s (some ec) n cf1 cf2).error = true ∧
    (readEndR false s (some ec) n cf1 cf2).isOpen = true ∧
    (rexec (readEndR false s (some ec) n cf1 cf2) es).cbCount
      = (readEndR false s (some ec) n cf1 cf2).cbCount ∧
    (∀ (t : RState) (cg1 cg2 : Bool),
      (writeEndR t true cg1 cg2).error = true ∧
      (writeEndR t true cg1 cg2).isOpen = t.isOpen ∧
      (writeEndR t true cg1 cg2).portOpen = false) ∧
    rvalidTrace cbRunningRState
      [REvent.write [7], REvent.runDoWrite, REvent.writeEnd true false false,
        REvent.readEnd none 1 false false] = true ∧
    noOpenEvent
      [REvent.write [7], REvent.runDoWrite, REvent.writeEnd true false false,
        REvent.readEnd none 1 false false] = true ∧
    (rexec cbRunningRState
      [REvent.write [7], REvent.runDoWrite,
        REvent.writeEnd true false false]).error = true ∧
    (rexec cbRunningRState
      [REvent.write [7], REvent.runDoWrite,
        REvent.writeEnd true false false]).cbCount = 0 ∧
    (rexec cbRunningRState
      [REvent.write [7], REvent.runDoWrite, REvent.writeEnd true false false,
        REvent.readEnd none 1 false false]).cbCount = 1 := by
  have hs : readEndR false s (some ec) n cf1 cf2
      = setErrorStatusR (doCloseR { s with readPending := false } cf1 cf2) true := by
    simp [readEndR, hOpen]
  obtain ⟨hio, _, _, hra, hrp2, _, _, _, _, _⟩ :=
    doCloseR_frame { s with readPending := false } cf1 cf2
  refine ⟨by rw [hs]; rfl, ?_, ?_, ?_, by decide, by decide, by decide,
    by decide, by decide⟩
  · rw [hs]
    exact hio.trans hOpen
  · rw [hs] at hv ⊢
    exact quiesced_trace es _ hrp2 (hra.trans hrap) hno hv
  · intro t cg1 cg2
    obtain ⟨_, _, _, _, _, _, hi, he⟩ := writeEndR_err_proj t cg1 cg2
    refine ⟨he, hi, ?_⟩
    cases cg1 <;> cases cg2 <;> rfl

/-- C3 witness: the amended theorem evaluated at the concrete running
state, with the empty continuation trace. -/
theorem c3_amended_runtime_error_witness :
    (readEndR false errorReadyRState (some 1) 0 false false).error = true ∧
    (readEndR false errorReadyRState (some 1) 0 false false).isOpen = true ∧
    (rexec (readEndR false errorReadyRState (some 1) 0 false false) []).cbCount
      = (readEndR false errorReadyRState (some 1) 0 false false).cbCount := by
  have h := c3_amended_runtime_error errorReadyRState 1 0 false false []
    (by decide) (by decide) (by decide) (by decide) (by decide)
  exact ⟨h.1, h.2.1, h.2.2.1⟩

/-- No event other than a fresh `open` ever clears the error flag. -/
theorem errorLatch_step (s : RState) (e : REvent)
    (hne : isOpenEvent e = false) (he : s.error = true) :
    (rstep s e).error = true := by
  cases e with
  | write data => exact he
  | runDoWrite =>
      by_cases hb : s.writeBuffer = none <;> simp [rstep, doWriteR, hb, he]
  | writeEnd err cf1 cf2 =>
      cases err with
      | false =>
          by_cases hq : s.writeQueue = [] <;> simp [rstep, writeEndR, hq, he]
      | true =>
          exact (writeEndR_err_proj s cf1 cf2).2.2.2.2.2.2.2
  | runDoRead => exact he
  | readEnd ec n cf1 cf2 =>
      show (readEndR false s ec n cf1 cf2).error = true
      cases ec with
      | none =>
          cases hc : s.hasCallback <;> simp [readEndR, doReadR, hc, he]
      | some v =>
          cases ho : s.isOpen with
          | false => simp [readEndR, ho, he]
          | true =>
              simp [readEndR, ho, setErrorStatusR]
  | openEv cf1 cf2 out => simp [isOpenEvent] at hne
  | closeEv cf1 cf2 => exact closeR_error_mono s cf1 cf2 he

/-- Once set, the error flag survives every trace without a fresh
`open`. -/
theorem errorLatch_trace (es : List REvent) (s : RState)
    (he : s.error = true) (hno : noOpenEvent es = true) :
    (rexec s es).error = true := by
  induction es generalizing s with
  | nil => exact he
  | cons e es ih =>
      simp only [noOpenEvent, List.all_cons, Bool.and_eq_true] at hno
      have hne : isOpenEvent e = false := by
        rcases hno with ⟨hno1, _⟩
        cases hie : isOpenEvent e
        · rfl
        · rw [hie] at hno1; simp at hno1
      exact ih (rstep s e) (errorLatch_step s e hne he) hno.2

/-- C8: the error flag is cleared only by a fresh `open` attempt: over
any reactor trace with no `open` event it stays true once set, no
blocking-worker read, write, or close path ever clears it, and a
`close()` after an earlier error still observes the flag true (and
therefore throws when the engine was open). -/
theorem c8_error_flag_latched (s : RState) (es : List REvent) (t : BState)
    (data : List Nat) (ret r : Int) (cf1 cf2 : Bool)
    (he : s.error = true) (hno : noOpenEvent es = true)
    (hte : t.error = true) :
    (rexec s es).error = true ∧
    (writeB t data ret).error = true ∧
    ((doReadBStep t r).1).error = true ∧
    ((closeB t).1).error = true ∧
    ((closeR s cf1 cf2).1).error = true ∧
    (s.isOpen = true → (closeR s cf1 cf2).2 = true) := by
  refine ⟨errorLatch_trace es s he hno, ?_, ?_, ?_,
    closeR_error_mono s cf1 cf2 he, ?_⟩
  · unfold writeB setErrorStatusB
    by_cases h : ret = (data.length : Int) <;> simp [h, hte]
  · unfold doReadBStep setErrorStatusB
    by_cases h1 : r < 0
    · cases ho : t.isOpen <;> simp [h1, ho, hte]
    · simp [h1, hte]
  · unfold closeB
    cases ho : t.isOpen <;> simp [ho, hte]
  · intro hos
    unfold closeR
    simp only [hos, if_true]
    exact doCloseR_error_mono { s with isOpen := false } cf1 cf2 he

/-- C8 witness: the latch evaluated on a concrete errored state and a
concrete open-free trace. -/
theorem c8_error_flag_latched_witness :
    (rexec erroredRState [REvent.write [2]]).error = true :=
  (c8_error_flag_latched erroredRState [REvent.write [2]] erroredBState
    [1] 1 0 false false (by decide) (by decide) (by decide)).1

/-- C5: the reactor-model `open` sets the error flag true before
acquiring the device and clears it only on full success: if `open`
throws (which it does for every acquisition, configuration, or
thread-start failure), the engine is left with `error = true` and
`open = false`; if it returns normally, `error = false` and
`open = true`. -/
theorem c5_open_error_discipline (s : RState) (cf1 cf2 : Bool)
    (out : ROpenOutcome) :
    (out ≠ ROpenOutcome.success → (openR s cf1 cf2 out).2 = true) ∧
    ((openR s cf1 cf2 out).2 = true →
      ((openR s cf1 cf2 out).1).error = true ∧
      ((openR s cf1 cf2 out).1).isOpen = false) ∧
    ((openR s cf1 cf2 out).2 = false →
      ((openR s cf1 cf2 out).1).error = false ∧
      ((openR s cf1 cf2 out).1).isOpen = true) := by
  obtain ⟨o, e, p, th, wq, wb, rap, rp, cb, tx, os, cc⟩ := s
  cases o <;> cases e <;> cases cf1 <;> cases cf2 <;> cases out <;>
    simp [openR, closeR, doCloseR, setErrorStatusR]

/-- C5 witness: a failure at device acquisition makes `open` throw. -/
theorem c5_open_error_discipline_witness :
    (openR initRState false false ROpenOutcome.failAcquire).2 = true :=
  (c5_open_error_discipline initRState false false
    ROpenOutcome.failAcquire).1 (by decide)

/-- C6: in both models, `close()` on a non-open engine returns
immediately without throwing and changes no state; on an open engine it
throws exactly when the error flag is set after the background thread is
joined, and in every case the device handle is released and the thread
is joined, whether or not close reports failure. -/
theorem c6_close_contract (s : RState) (t : BState) (cf1 cf2 : Bool) :
    (s.isOpen = false → closeR s cf1 cf2 = (s, false)) ∧
    (s.isOpen = true →
      ((closeR s cf1 cf2).2 = true ↔ ((closeR s cf1 cf2).1).error = true) ∧
      ((closeR s cf1 cf2).1).portOpen = false ∧
      ((closeR s cf1 cf2).1).threadRunning = false) ∧
    (t.isOpen = false → closeB t = (t, false)) ∧
    (t.isOpen = true →
      ((closeB t).2 = true ↔ ((closeB t).1).error = true) ∧
      ((closeB t).1).portOpen = false ∧
      ((closeB t).1).threadRunning = false) := by
  obtain ⟨o, e, p, th, wq, wb, rap, rp, cb, tx, os, cc⟩ := s
  obtain ⟨ob, eb, pb, thb, fdb, cbb, txb⟩ := t
  cases o <;> cases e <;> cases ob <;> cases eb <;> cases cf1 <;> cases cf2 <;>
    simp [closeR, closeB, doCloseR, setErrorStatusR]

/-- C6 witness: `close()` on the never-opened engine is a no-op in the
reactor model. -/
theorem c6_close_contract_witness :
    closeR initRState false false = (initRState, false) :=
  (c6_close_contract initRState initBState false false).1 (by decide)

/-- C4 as amended: in the reactor model, `open` throws whenever the
device cannot be acquired or its line parameters cannot be configured,
leaving `error = true` and `open = false`; but in the blocking-worker
model `open` never throws on an inaccessible device path or a rejected
configuration: it stores the failed descriptor, clears the error flag,
and marks the engine open. -/
theorem c4_amended_open_failure (s : RState) (t : BState) (cf1 cf2 : Bool)
    (out : ROpenOutcome) (newFd : Int) (cfg : List Bool)
    (hout : out = ROpenOutcome.failAcquire ∨ out = ROpenOutcome.failOption)
    (ht : t.isOpen = false) :
    (openR s cf1 cf2 out).2 = true ∧
    ((openR s cf1 cf2 out).1).error = true ∧
    ((openR s cf1 cf2 out).1).isOpen = false ∧
    (openB t newFd cfg).2 = false ∧
    ((openB t newFd cfg).1).isOpen = true ∧
    ((openB t newFd cfg).1).error = false := by
  have hB : (openB t newFd cfg).2 = false ∧
      ((openB t newFd cfg).1).isOpen = true ∧
      ((openB t newFd cfg).1).error = false := by
    unfold openB openBodyB setErrorStatusB
    simp [ht]
  have hA : (openR s cf1 cf2 out).2 = true ∧
      ((openR s cf1 cf2 out).1).error = true ∧
      ((openR s cf1 cf2 out).1).isOpen = false := by
    obtain ⟨o, e, p, th, wq, wb, rap, rp, cb, tx, os, cc⟩ := s
    rcases hout with h | h <;> subst h <;>
      cases o <;> cases e <;> cases cf1 <;> cases cf2 <;>
        simp [openR, closeR, doCloseR, setErrorStatusR]
  exact ⟨hA.1, hA.2.1, hA.2.2, hB.1, hB.2.1, hB.2.2⟩

/-- C4 witness: a concrete instance with a failing acquisition in the
reactor model and an inaccessible device in the blocking-worker model. -/
theorem c4_amended_open_failure_witness :
    (openR initRState false false ROpenOutcome.failAcquire).2 = true ∧
    ((openR initRState false false ROpenOutcome.failAcquire).1).error = true ∧
    ((openR initRState false false ROpenOutcome.failAcquire).1).isOpen
      = false ∧
    (openB initBState (-2) []).2 = false ∧
    ((openB initBState (-2) []).1).isOpen = true ∧
    ((openB initBState (-2) []).1).error = false :=
  c4_amended_open_failure initRState initBState false false
    ROpenOutcome.failAcquire (-2) [] (Or.inl rfl) (by decide)
